import Mathlib

/-!
Verification development for the `vimba-rs` camera streaming library.

The definitions below are a shallow embedding of the Rust sources
(`src/camera.rs`, `src/error.rs`, `src/feature.rs`).  Foreign driver calls
(the VmbXxx FFI functions) are modelled by explicit oracles recording, for
each call site, the status the driver would return; every modelled function
additionally produces the ordered trace of driver calls it made, so that
ordering and rollback properties can be stated.  A `none` value of an
`Option`-typed result models divergence or a Rust panic, as noted at each
definition.
-/

/-- The error enum of `src/error.rs` (`pub enum Error`), including the
locally synthesized `DeviceBusy` variant.  The source's `IO` variant is
written `IOError` here so as not to clash with the Lean core namespace. -/
inductive Error where
  | InternalFault
  | ApiNotStarted
  | NotFound
  | BadHandle
  | DeviceNotOpen
  | InvalidAccess
  | BadParameter
  | StructSize
  | MoreData
  | WrongType
  | InvalidValue
  | Timeout
  | Other
  | Resources
  | InvalidCall
  | NoTL
  | NotImplemented
  | NotSupported
  | Incomplete
  | IOError
  | DeviceBusy
deriving DecidableEq

/-- Modelled from the spec: the numeric values of the foreign Vimba status
codes.  They live in the generated `vimba_sys` bindings module, which is not
among the sources; per the spec they are the "foreign status codes" of the
device driver, with one distinguished success code and distinct error codes
(the standard Vimba C convention: success `0`, errors `-1 .. -20`).  Only
their distinctness and the success/error split are load-bearing. -/
def VmbErrorSuccess : Int := 0

def VmbErrorInternalFault : Int := -1

def VmbErrorApiNotStarted : Int := -2

def VmbErrorNotFound : Int := -3

def VmbErrorBadHandle : Int := -4

def VmbErrorDeviceNotOpen : Int := -5

def VmbErrorInvalidAccess : Int := -6

def VmbErrorBadParameter : Int := -7

def VmbErrorStructSize : Int := -8

def VmbErrorMoreData : Int := -9

def VmbErrorWrongType : Int := -10

def VmbErrorInvalidValue : Int := -11

def VmbErrorTimeout : Int := -12

def VmbErrorOther : Int := -13

def VmbErrorResources : Int := -14

def VmbErrorInvalidCall : Int := -15

def VmbErrorNoTL : Int := -16

def VmbErrorNotImplemented : Int := -17

def VmbErrorNotSupported : Int := -18

def VmbErrorIncomplete : Int := -19

def VmbErrorIOCode : Int := -20

/-- `impl TryFrom<i32> for Error` in `src/error.rs`: the 1:1 map from known
foreign status codes to `Error` variants; unknown codes give `Err(())`. -/
def Error.try_from (v : Int) : Except Unit Error :=
  if v = VmbErrorInternalFault then .ok .InternalFault
  else if v = VmbErrorApiNotStarted then .ok .ApiNotStarted
  else if v = VmbErrorNotFound then .ok .NotFound
  else if v = VmbErrorBadHandle then .ok .BadHandle
  else if v = VmbErrorDeviceNotOpen then .ok .DeviceNotOpen
  else if v = VmbErrorInvalidAccess then .ok .InvalidAccess
  else if v = VmbErrorBadParameter then .ok .BadParameter
  else if v = VmbErrorStructSize then .ok .StructSize
  else if v = VmbErrorMoreData then .ok .MoreData
  else if v = VmbErrorWrongType then .ok .WrongType
  else if v = VmbErrorInvalidValue then .ok .InvalidValue
  else if v = VmbErrorTimeout then .ok .Timeout
  else if v = VmbErrorOther then .ok .Other
  else if v = VmbErrorResources then .ok .Resources
  else if v = VmbErrorInvalidCall then .ok .InvalidCall
  else if v = VmbErrorNoTL then .ok .NoTL
  else if v = VmbErrorNotImplemented then .ok .NotImplemented
  else if v = VmbErrorNotSupported then .ok .NotSupported
  else if v = VmbErrorIncomplete then .ok .Incomplete
  else if v = VmbErrorIOCode then .ok .IOError
  else .error ()

/-- `error_code_to_result` in `src/error.rs`.  `none` models the
`panic!("Unknown Vimba error code ...")` branch. -/
def error_code_to_result (code : Int) : Option (Except Error Unit) :=
  if code = VmbErrorSuccess then some (.ok ())
  else
    match Error.try_from code with
    | .ok e => some (.error e)
    | .error _ => none

/-- An `f64` value modelled by its 64-bit pattern: the feature code only
stores and moves floats, it never computes with them, so bit-level identity
is all the claims need. -/
structure f64 where
  bits : Nat
deriving DecidableEq

/-- Alias for `i64`, usable where a `FeatureValue` constructor name shadows
the type name. -/
abbrev Int64 : Type := Int

/-- Alias for Rust string data, usable where a `FeatureValue` constructor
name shadows the type name. -/
abbrev Str : Type := String

/-- Alias for `bool`, usable where a `FeatureValue` constructor name shadows
the type name. -/
abbrev Boolean : Type := Bool

/-- `FeatureType` from `src/feature.rs`. -/
inductive FeatureType where
  | Int | Float | Enum | String | Bool | Command | Raw | None
deriving DecidableEq

/-- `FeatureValue` from `src/feature.rs`; byte blobs (`Vec<u8>`) are lists of
bytes, `&str` and `String` values are both `String`. -/
inductive FeatureValue where
  | Int (v : Int)
  | Float (v : f64)
  | Enum (v : String)
  | String (v : String)
  | Bool (v : Bool)
  | Raw (v : List Nat)
deriving DecidableEq

/-- `FeatureValue::feature_type` from `src/feature.rs`. -/
def FeatureValue.feature_type : FeatureValue → FeatureType
  | .Int _ => .Int
  | .Float _ => .Float
  | .Enum _ => .Enum
  | .String _ => .String
  | .Bool _ => .Bool
  | .Raw _ => .Raw

/-- `EnumAsInner`-generated `into_int`: the carried value for the `Int`
variant, `none` (the `Err(self)` case, on which `.unwrap()` panics) for any
other variant. -/
def FeatureValue.into_int : FeatureValue → Option Int64
  | .Int v => some v
  | _ => none

/-- `EnumAsInner`-generated `into_float`. -/
def FeatureValue.into_float : FeatureValue → Option f64
  | .Float v => some v
  | _ => none

/-- `EnumAsInner`-generated `into_enum`. -/
def FeatureValue.into_enum : FeatureValue → Option Str
  | .Enum v => some v
  | _ => none

/-- `EnumAsInner`-generated `into_string`. -/
def FeatureValue.into_string : FeatureValue → Option Str
  | .String v => some v
  | _ => none

/-- `EnumAsInner`-generated `into_bool`. -/
def FeatureValue.into_bool : FeatureValue → Option Boolean
  | .Bool v => some v
  | _ => none

/-- `EnumAsInner`-generated `into_raw`. -/
def FeatureValue.into_raw : FeatureValue → Option (List Nat)
  | .Raw v => some v
  | _ => none

/-- `HasFeatures::get_feature_int` from `src/feature.rs`:
`Ok(self.get_feature(name)?.into_int().unwrap())`.  The untyped
`get_feature` is abstracted as the function `gf` (its behaviour depends on
the device); `some` carries the returned `Result`, `none` models the
`.unwrap()` panic when the variant does not match. -/
def get_feature_int (gf : String → Except Error FeatureValue) (name : String) :
    Option (Except Error Int) :=
  match gf name with
  | .error e => some (.error e)
  | .ok v => (v.into_int).map .ok

/-- `HasFeatures::get_feature_float` from `src/feature.rs`. -/
def get_feature_float (gf : String → Except Error FeatureValue) (name : String) :
    Option (Except Error f64) :=
  match gf name with
  | .error e => some (.error e)
  | .ok v => (v.into_float).map .ok

/-- `HasFeatures::get_feature_enum` from `src/feature.rs`. -/
def get_feature_enum (gf : String → Except Error FeatureValue) (name : String) :
    Option (Except Error String) :=
  match gf name with
  | .error e => some (.error e)
  | .ok v => (v.into_enum).map .ok

/-- `HasFeatures::get_feature_string` from `src/feature.rs`. -/
def get_feature_string (gf : String → Except Error FeatureValue) (name : String) :
    Option (Except Error String) :=
  match gf name with
  | .error e => some (.error e)
  | .ok v => (v.into_string).map .ok

/-- `HasFeatures::get_feature_bool` from `src/feature.rs`. -/
def get_feature_bool (gf : String → Except Error FeatureValue) (name : String) :
    Option (Except Error Bool) :=
  match gf name with
  | .error e => some (.error e)
  | .ok v => (v.into_bool).map .ok

/-- `HasFeatures::get_feature_raw` from `src/feature.rs`. -/
def get_feature_raw (gf : String → Except Error FeatureValue) (name : String) :
    Option (Except Error (List Nat)) :=
  match gf name with
  | .error e => some (.error e)
  | .ok v => (v.into_raw).map .ok

/-- The driver's frame descriptor `VmbFrame_t` as far as the Rust code reads
it: the buffer (as its byte contents), its registered size, and the
completion metadata the driver writes.  `u32`/`u64` fields are `Nat`s; the
context pointer array is not data, it is modelled by passing the callback
context explicitly to `wrapper`. -/
structure VmbFrame_t where
  buffer : List Nat
  bufferSize : Nat
  width : Nat
  height : Nat
  offsetX : Nat
  offsetY : Nat
  frameID : Nat
  timestamp : Nat
deriving DecidableEq

/-- `Frame<T>` from `src/camera.rs`. -/
structure Frame (α : Type) where
  data : α
  width : Nat
  height : Nat
  offset_x : Nat
  offset_y : Nat
  id : Nat
  timestamp : Nat
deriving DecidableEq

/-- `Frame::from_c_struct` from `src/camera.rs`: copies the six metadata
fields out of the descriptor (the `as usize` casts are `u32 -> usize`
widenings, lossless). -/
def Frame.from_c_struct (frame : VmbFrame_t) (data : α) : Frame α :=
  { data
    width := frame.width
    height := frame.height
    offset_x := frame.offsetX
    offset_y := frame.offsetY
    id := frame.frameID
    timestamp := frame.timestamp }

/-- `Frame::map_data` from `src/camera.rs`. -/
def Frame.map_data (self : Frame α) (f : α → β) : Frame β :=
  { data := f self.data
    width := self.width
    height := self.height
    offset_x := self.offset_x
    offset_y := self.offset_y
    id := self.id
    timestamp := self.timestamp }

/-- `Frame::with_ref_data` = `map_data(AsRef::as_ref)`; on a byte slice
`as_ref` is the identity on contents. -/
def Frame.with_ref_data (self : Frame (List Nat)) : Frame (List Nat) :=
  self.map_data (fun data => data)

/-- `Frame::with_vec_data` = `map_data(|d| d.as_ref().to_vec())`; the copy
`to_vec` has the same byte contents. -/
def Frame.with_vec_data (self : Frame (List Nat)) : Frame (List Nat) :=
  self.map_data (fun data => data)

/-- `Frame::from_c_struct_ref_data` from `src/camera.rs`: the data is the
slice of `bufferSize` bytes starting at the buffer pointer. -/
def Frame.from_c_struct_ref_data (frame : VmbFrame_t) : Frame (List Nat) :=
  Frame.from_c_struct frame (frame.buffer.take frame.bufferSize)

/-- `StreamContinue` from `src/camera.rs`. -/
structure StreamContinue where
  val : Bool
deriving DecidableEq


/-- Model of `CameraCallbackContext` from `src/camera.rs`.  The handler and
the buffer/frame vectors are passed explicitly where needed; what the
structure tracks is the pool size (`frames.len()` = `buffers.len()` =
`numFrames`), the stop channel (`pending` = number of sent-but-unreceived
`()` messages in `stop_tx`/`stop_rx`), and the shared `stopped` flag. -/
structure CameraCallbackContext where
  numFrames : Nat
  pending : Nat
  stopped : Bool
deriving DecidableEq

/-- Model of `Camera` from `src/camera.rs`: the `open` flag and the optional
pinned callback context.  Handle and Vimba context are identity-only and
omitted. -/
structure Camera where
  isOpen : Bool
  cb_ctx : Option CameraCallbackContext
deriving DecidableEq

/-- One observable step of the modelled code: a driver call (`VmbXxx`), a
feature/command access, the stop-channel send, or the poll-loop sleep
(with its duration in milliseconds). -/
inductive DevEvent where
  | getFeatureInt (name : String)
  | frameAnnounce (i : Nat)
  | setFeatureEnum (name val : String)
  | captureStart
  | frameQueue (i : Nat)
  | runCommand (name : String)
  | sendStop
  | getFeatureBool (name : String)
  | sleep (ms : Nat)
  | captureEnd
  | queueFlush
  | frameRevoke (i : Nat)
  | cameraClose
deriving DecidableEq

/-- Driver responses for each call site of `start_streaming`, in program
order: the `PayloadSize` query, `VmbFrameAnnounce` per buffer index, the two
`set_feature_enum` writes, `VmbCaptureStart`, `VmbCaptureFrameQueue` per
buffer index, and the `AcquisitionStart` command. -/
structure StartOracle where
  payloadSize : Except Error Int
  announceRes : Nat → Except Error Unit
  setSelectorRes : Except Error Unit
  setModeRes : Except Error Unit
  captureStartRes : Except Error Unit
  queueRes : Nat → Except Error Unit
  acqStartRes : Except Error Unit

/-- Driver responses for each call site of `stop_streaming`: the
`AcquisitionStop` command, the successive `AcquisitionStatus` reads of the
poll loop, `VmbCaptureEnd`, `VmbCaptureQueueFlush`, and `VmbFrameRevoke`
per buffer index.  (The `stop_tx.send` cannot fail here: the receiving end
is alive inside the same `cb_ctx`.) -/
structure StopOracle where
  acqStopRes : Except Error Unit
  statusResponses : List (Except Error Bool)
  captureEndRes : Except Error Unit
  flushRes : Except Error Unit
  revokeRes : Nat → Except Error Unit

/-- The announce loop of `start_streaming`: one `VmbFrameAnnounce` per index,
stopping at the first error (the loop body ends in `?`).  Returns the result
together with the events of the calls actually made. -/
def announceList (l : List Nat) (f : Nat → Except Error Unit) :
    Except Error Unit × List DevEvent :=
  match l with
  | [] => (.ok (), [])
  | i :: rest =>
    match f i with
    | .error e => (.error e, [.frameAnnounce i])
    | .ok _ =>
      match announceList rest f with
      | (res, evs) => (res, .frameAnnounce i :: evs)

/-- The initial queueing loop of `start_streaming`: one
`VmbCaptureFrameQueue` per index, stopping at the first error. -/
def queueList (l : List Nat) (f : Nat → Except Error Unit) :
    Except Error Unit × List DevEvent :=
  match l with
  | [] => (.ok (), [])
  | i :: rest =>
    match f i with
    | .error e => (.error e, [.frameQueue i])
    | .ok _ =>
      match queueList rest f with
      | (res, evs) => (res, .frameQueue i :: evs)

/-- The revoke loop of `stop_streaming`: one `VmbFrameRevoke` per index,
stopping at the first error. -/
def revokeList (l : List Nat) (f : Nat → Except Error Unit) :
    Except Error Unit × List DevEvent :=
  match l with
  | [] => (.ok (), [])
  | i :: rest =>
    match f i with
    | .error e => (.error e, [.frameRevoke i])
    | .ok _ =>
      match revokeList rest f with
      | (res, evs) => (res, .frameRevoke i :: evs)

/-- The `while self.get_feature_bool("AcquisitionStatus")? { sleep(10ms) }`
loop of `stop_streaming`, driven by the successive status responses.  `none`
models divergence: the oracle list ran out while the status still read
`true`, i.e. acquisition never reports inactive. -/
def pollStatus : List (Except Error Bool) → Option (Except Error Unit × List DevEvent)
  | [] => none
  | r :: rest =>
    match r with
    | .error e => some (.error e, [.getFeatureBool "AcquisitionStatus"])
    | .ok false => some (.ok (), [.getFeatureBool "AcquisitionStatus"])
    | .ok true =>
      match pollStatus rest with
      | none => none
      | some (res, evs) =>
        some (res, .getFeatureBool "AcquisitionStatus" :: .sleep 10 :: evs)

/-- `Camera::start_streaming` from `src/camera.rs`, with the driver's
responses supplied by the oracle.  Returns the Rust result, the camera state
after the call, and the ordered trace of driver calls made.  Mirrors the
source exactly: early `DeviceBusy` return when `cb_ctx` is present; payload
query; announce loop (each `?`); the two feature writes; `VmbCaptureStart`;
the queue loop; `self.cb_ctx = Some(cb_ctx)`; `AcquisitionStart`, clearing
`cb_ctx` again if that command fails. -/
def start_streaming (cam : Camera) (o : StartOracle) (buffers : Nat) :
    Except Error Unit × Camera × List DevEvent :=
  match cam.cb_ctx with
  | some _ => (.error .DeviceBusy, cam, [])
  | none =>
    match o.payloadSize with
    | .error e => (.error e, cam, [.getFeatureInt "PayloadSize"])
    | .ok _ =>
      let ev0 : List DevEvent := [.getFeatureInt "PayloadSize"]
      match announceList (List.range buffers) o.announceRes with
      | (.error e, evs) => (.error e, cam, ev0 ++ evs)
      | (.ok _, evsA) =>
        let ev1 := ev0 ++ evsA
        match o.setSelectorRes with
        | .error e =>
          (.error e, cam,
            ev1 ++ [.setFeatureEnum "AcquisitionStatusSelector" "AcquisitionActive"])
        | .ok _ =>
          let ev2 := ev1 ++ [DevEvent.setFeatureEnum "AcquisitionStatusSelector" "AcquisitionActive"]
          match o.setModeRes with
          | .error e => (.error e, cam, ev2 ++ [.setFeatureEnum "AcquisitionMode" "Continuous"])
          | .ok _ =>
            let ev3 := ev2 ++ [DevEvent.setFeatureEnum "AcquisitionMode" "Continuous"]
            match o.captureStartRes with
            | .error e => (.error e, cam, ev3 ++ [.captureStart])
            | .ok _ =>
              let ev4 := ev3 ++ [DevEvent.captureStart]
              match queueList (List.range buffers) o.queueRes with
              | (.error e, evs) => (.error e, cam, ev4 ++ evs)
              | (.ok _, evsQ) =>
                let ev5 := ev4 ++ evsQ
                let cam1 : Camera := ⟨cam.isOpen, some ⟨buffers, 0, false⟩⟩
                match o.acqStartRes with
                | .error e =>
                  (.error e, ⟨cam1.isOpen, none⟩, ev5 ++ [.runCommand "AcquisitionStart"])
                | .ok _ => (.ok (), cam1, ev5 ++ [.runCommand "AcquisitionStart"])

/-- `Camera::stop_streaming` from `src/camera.rs`.  `none` models the
divergence of the status poll loop.  The stop-channel send happens first and
increments `pending`; on the early-error paths (`?`) the callback context is
left in place, exactly as in the source, where `self.cb_ctx = None` is only
reached at the end. -/
def stop_streaming (cam : Camera) (o : StopOracle) :
    Option (Except Error Unit × Camera × List DevEvent) :=
  match cam.cb_ctx with
  | none => some (.ok (), cam, [])
  | some ctx =>
    let ctx1 : CameraCallbackContext := ⟨ctx.numFrames, ctx.pending + 1, ctx.stopped⟩
    let cam1 : Camera := ⟨cam.isOpen, some ctx1⟩
    match o.acqStopRes with
    | .error e => some (.error e, cam1, [.sendStop, .runCommand "AcquisitionStop"])
    | .ok _ =>
      let ev1 : List DevEvent := [.sendStop, .runCommand "AcquisitionStop"]
      match pollStatus o.statusResponses with
      | none => none
      | some (.error e, evs) => some (.error e, cam1, ev1 ++ evs)
      | some (.ok _, evsP) =>
        let ev2 := ev1 ++ evsP
        match o.captureEndRes with
        | .error e => some (.error e, cam1, ev2 ++ [.captureEnd])
        | .ok _ =>
          let ev3 := ev2 ++ [DevEvent.captureEnd]
          match o.flushRes with
          | .error e => some (.error e, cam1, ev3 ++ [.queueFlush])
          | .ok _ =>
            let ev4 := ev3 ++ [DevEvent.queueFlush]
            match revokeList (List.range ctx.numFrames) o.revokeRes with
            | (.error e, evs) => some (.error e, cam1, ev4 ++ evs)
            | (.ok _, evsR) => some (.ok (), ⟨cam.isOpen, none⟩, ev4 ++ evsR)

/-- What one callback-bridge invocation did: whether the user handler was
invoked, and whether the completed frame was re-queued with the driver. -/
structure WrapperRecord where
  invoked : Bool
  requeued : Bool
deriving DecidableEq

/-- The driver callback bridge: `wrapper` in `Camera::start_streaming`
(`src/camera.rs`).  The handler is an `FnMut` closure, modelled as a step
function over its captured state `σ`.  `ctx` carries the stop channel and
stopped flag the bridge reaches through the frame's context pointers;
`requeueRes` is the driver's status for the `VmbCaptureFrameQueue` re-queue
call, whose `.unwrap()` panic is modelled by `none`.  Step for step:
`try_recv` succeeds iff a message is pending (consuming it and setting
`stopped`); return if `stopped`; otherwise build the frame view, run the
handler once, then either set `stopped` (handler said stop) or re-queue the
same frame (handler said continue). -/
def wrapper {σ : Type} (ctx : CameraCallbackContext)
    (handler : σ → Frame (List Nat) → σ × StreamContinue) (s : σ)
    (frame : VmbFrame_t) (requeueRes : Except Error Unit) :
    Option (CameraCallbackContext × σ × WrapperRecord) :=
  if 0 < ctx.pending then
    some (⟨ctx.numFrames, ctx.pending - 1, true⟩, s, ⟨false, false⟩)
  else if ctx.stopped then
    some (⟨ctx.numFrames, ctx.pending, true⟩, s, ⟨false, false⟩)
  else
    let frame_rs := Frame.from_c_struct_ref_data frame
    match handler s frame_rs with
    | (s1, action) =>
      if action = StreamContinue.mk false then
        some (⟨ctx.numFrames, ctx.pending, true⟩, s1, ⟨true, false⟩)
      else
        match requeueRes with
        | .ok _ => some (⟨ctx.numFrames, ctx.pending, false⟩, s1, ⟨true, true⟩)
        | .error _ => none

/-- A sequence of driver completions run through the callback bridge: each
delivery carries the completed descriptor and the driver's status for the
potential re-queue call.  Returns the final context, final handler state,
and the per-invocation records; `none` if some invocation panicked. -/
def runCallbacks {σ : Type} (ctx : CameraCallbackContext)
    (handler : σ → Frame (List Nat) → σ × StreamContinue) (s : σ) :
    List (VmbFrame_t × Except Error Unit) →
    Option (CameraCallbackContext × σ × List WrapperRecord)
  | [] => some (ctx, s, [])
  | (f, rq) :: rest =>
    match wrapper ctx handler s f rq with
    | none => none
    | some (ctx1, s1, rec) =>
      match runCallbacks ctx1 handler s1 rest with
      | none => none
      | some (ctx2, s2, recs) => some (ctx2, s2, rec :: recs)

/-- The closure `wrapper` built inside `Camera::stream` (`src/camera.rs`):
it runs the user handler and additionally sends `()` on the completion
channel when the handler signals stop.  The completion channel is the `Nat`
component of the state, counting sent messages. -/
def streamWrap {σ : Type} (handler : σ → Frame (List Nat) → σ × StreamContinue) :
    σ × Nat → Frame (List Nat) → (σ × Nat) × StreamContinue :=
  fun p fr =>
    match handler p.1 fr with
    | (s1, action) =>
      ((s1, if action = StreamContinue.mk false then p.2 + 1 else p.2), action)

/-- `Camera::stream` from `src/camera.rs`: start streaming with the wrapped
handler, block on `rx.recv()` until the handler has signalled stop, then run
`stop_streaming`.  `deliveries` is the sequence of frame completions the
driver produces while streaming.  `none` models divergence (the handler
never signalled stop so `rx.recv()` blocks forever, or the stop protocol
diverges) or a panic inside the callback. -/
def stream {σ : Type} (cam : Camera) (so : StartOracle)
    (handler : σ → Frame (List Nat) → σ × StreamContinue) (s : σ) (buffers : Nat)
    (deliveries : List (VmbFrame_t × Except Error Unit)) (po : StopOracle) :
    Option (Except Error Unit × Camera × σ × List WrapperRecord × List DevEvent) :=
  match start_streaming cam so buffers with
  | (.error e, cam1, evs) => some (.error e, cam1, s, [], evs)
  | (.ok _, cam1, evs) =>
    match cam1.cb_ctx with
    | none => none
    | some ctx =>
      match runCallbacks ctx (streamWrap handler) (s, 0) deliveries with
      | none => none
      | some (ctx1, p, recs) =>
        if p.2 = 0 then none
        else
          match stop_streaming ⟨cam1.isOpen, some ctx1⟩ po with
          | none => none
          | some (res, cam2, evs2) => some (res, cam2, p.1, recs, evs ++ evs2)

/-- The handler `Camera::get_frame` passes to `stream`: send a deep copy of
the frame down the result channel (the accumulating list) and stop. -/
def getFrameHandler :
    List (Frame (List Nat)) → Frame (List Nat) → List (Frame (List Nat)) × StreamContinue :=
  fun sent fr => (sent ++ [fr.with_vec_data], StreamContinue.mk false)

/-- `Camera::get_frame` from `src/camera.rs`: `stream` with `getFrameHandler`
and 2 buffers, then `Ok(rx.recv().unwrap())` — the first frame sent down the
result channel.  `none` models divergence or the `unwrap` panic. -/
def get_frame (cam : Camera) (so : StartOracle)
    (deliveries : List (VmbFrame_t × Except Error Unit)) (po : StopOracle) :
    Option (Except Error (Frame (List Nat)) × Camera × List DevEvent) :=
  match stream cam so getFrameHandler [] 2 deliveries po with
  | none => none
  | some (.error e, cam1, _, _, evs) => some (.error e, cam1, evs)
  | some (.ok _, cam1, sent, _, evs) =>
    match sent with
    | [] => none
    | f :: _ => some (.ok f, cam1, evs)

/-- `Camera::close` from `src/camera.rs`: if open, call `VmbCameraClose` and,
on success, clear `open` and drop `cb_ctx`; if already closed, `Ok(())` with
no driver call.  `closeRes` is the driver's status for `VmbCameraClose`. -/
def Camera.close (cam : Camera) (closeRes : Except Error Unit) :
    Except Error Unit × Camera × List DevEvent :=
  if cam.isOpen then
    match closeRes with
    | .ok _ => (.ok (), ⟨false, none⟩, [.cameraClose])
    | .error e => (.error e, cam, [.cameraClose])
  else (.ok (), cam, [])

/-- `impl Drop for Camera` from `src/camera.rs`: run `close` and panic
(modelled by `none`) if it returns an error. -/
def dropCamera (cam : Camera) (closeRes : Except Error Unit) :
    Option (Camera × List DevEvent) :=
  match Camera.close cam closeRes with
  | (.ok _, cam1, evs) => some (cam1, evs)
  | (.error _, _, _) => none

/-- The driver-call trace of a fully successful `start_streaming`. -/
def startEvents (buffers : Nat) : List DevEvent :=
  [.getFeatureInt "PayloadSize"]
    ++ (List.range buffers).map DevEvent.frameAnnounce
    ++ [.setFeatureEnum "AcquisitionStatusSelector" "AcquisitionActive",
        .setFeatureEnum "AcquisitionMode" "Continuous",
        .captureStart]
    ++ (List.range buffers).map DevEvent.frameQueue
    ++ [.runCommand "AcquisitionStart"]

/-- The events of a status poll loop that reads `true` k times before
reading `false`. -/
def pollEvents : Nat → List DevEvent
  | 0 => [.getFeatureBool "AcquisitionStatus"]
  | k + 1 => .getFeatureBool "AcquisitionStatus" :: .sleep 10 :: pollEvents k

/-- The driver-call trace of a fully successful `stop_streaming` over `n`
buffers whose status poll reads `true` k times. -/
def stopEvents (k n : Nat) : List DevEvent :=
  [.sendStop, .runCommand "AcquisitionStop"]
    ++ pollEvents k
    ++ [.captureEnd, .queueFlush]
    ++ (List.range n).map DevEvent.frameRevoke

/-- Whether an event is a `VmbFrameRevoke` call. -/
def isFrameRevoke : DevEvent → Bool
  | .frameRevoke _ => true
  | _ => false

theorem announceList_ok (l : List Nat) (f : Nat → Except Error Unit)
    (h : ∀ i ∈ l, f i = .ok ()) :
    announceList l f = (.ok (), l.map DevEvent.frameAnnounce) := by
  induction l with
  | nil => rfl
  | cons i rest ih =>
    have hi : f i = .ok () := h i (by simp)
    have hrest := ih (fun j hj => h j (by simp [hj]))
    simp [announceList, hi, hrest]

theorem queueList_ok (l : List Nat) (f : Nat → Except Error Unit)
    (h : ∀ i ∈ l, f i = .ok ()) :
    queueList l f = (.ok (), l.map DevEvent.frameQueue) := by
  induction l with
  | nil => rfl
  | cons i rest ih =>
    have hi : f i = .ok () := h i (by simp)
    have hrest := ih (fun j hj => h j (by simp [hj]))
    simp [queueList, hi, hrest]

theorem revokeList_ok (l : List Nat) (f : Nat → Except Error Unit)
    (h : ∀ i ∈ l, f i = .ok ()) :
    revokeList l f = (.ok (), l.map DevEvent.frameRevoke) := by
  induction l with
  | nil => rfl
  | cons i rest ih =>
    have hi : f i = .ok () := h i (by simp)
    have hrest := ih (fun j hj => h j (by simp [hj]))
    simp [revokeList, hi, hrest]

theorem announceList_no_revoke (l : List Nat) (f : Nat → Except Error Unit) (i : Nat) :
    DevEvent.frameRevoke i ∉ (announceList l f).2 := by
  induction l with
  | nil => simp [announceList]
  | cons j rest ih =>
    cases hj : f j with
    | error e => simp [announceList, hj]
    | ok u =>
      rcases hr : announceList rest f with ⟨r, evs⟩
      rw [hr] at ih
      simp only [announceList, hj, hr]
      simp only [List.mem_cons, not_or]
      exact ⟨by simp, ih⟩

theorem queueList_no_revoke (l : List Nat) (f : Nat → Except Error Unit) (i : Nat) :
    DevEvent.frameRevoke i ∉ (queueList l f).2 := by
  induction l with
  | nil => simp [queueList]
  | cons j rest ih =>
    cases hj : f j with
    | error e => simp [queueList, hj]
    | ok u =>
      rcases hr : queueList rest f with ⟨r, evs⟩
      rw [hr] at ih
      simp only [queueList, hj, hr]
      simp only [List.mem_cons, not_or]
      exact ⟨by simp, ih⟩

theorem pollStatus_replicate (k : Nat) :
    pollStatus (List.replicate k (.ok true) ++ [.ok false]) = some (.ok (), pollEvents k) := by
  induction k with
  | zero => rfl
  | succ n ih => simp [List.replicate_succ, pollStatus, ih, pollEvents]

theorem start_streaming_all_ok (cam : Camera) (o : StartOracle) (buffers : Nat) (sz : Int)
    (h0 : cam.cb_ctx = none) (h1 : o.payloadSize = .ok sz)
    (h2 : ∀ i < buffers, o.announceRes i = .ok ())
    (h3 : o.setSelectorRes = .ok ()) (h4 : o.setModeRes = .ok ())
    (h5 : o.captureStartRes = .ok ())
    (h6 : ∀ i < buffers, o.queueRes i = .ok ())
    (h7 : o.acqStartRes = .ok ()) :
    start_streaming cam o buffers =
      (.ok (), ⟨cam.isOpen, some ⟨buffers, 0, false⟩⟩, startEvents buffers) := by
  have ha := announceList_ok (List.range buffers) o.announceRes
    (fun i hi => h2 i (List.mem_range.mp hi))
  have hq := queueList_ok (List.range buffers) o.queueRes
    (fun i hi => h6 i (List.mem_range.mp hi))
  simp [start_streaming, h0, h1, ha, h3, h4, h5, hq, h7, startEvents]

theorem stop_streaming_all_ok (cam : Camera) (o : StopOracle)
    (ctx : CameraCallbackContext) (k : Nat)
    (h0 : cam.cb_ctx = some ctx) (h1 : o.acqStopRes = .ok ())
    (h2 : o.statusResponses = List.replicate k (.ok true) ++ [.ok false])
    (h3 : o.captureEndRes = .ok ()) (h4 : o.flushRes = .ok ())
    (h5 : ∀ i < ctx.numFrames, o.revokeRes i = .ok ()) :
    stop_streaming cam o = some (.ok (), ⟨cam.isOpen, none⟩, stopEvents k ctx.numFrames) := by
  have hr := revokeList_ok (List.range ctx.numFrames) o.revokeRes
    (fun i hi => h5 i (List.mem_range.mp hi))
  simp [stop_streaming, h0, h1, h2, pollStatus_replicate, h3, h4, hr, stopEvents]

theorem wrapper_of_stopped {σ : Type} (ctx : CameraCallbackContext)
    (handler : σ → Frame (List Nat) → σ × StreamContinue) (s : σ)
    (f : VmbFrame_t) (rq : Except Error Unit) (h : ctx.stopped = true) :
    wrapper ctx handler s f rq =
      some (⟨ctx.numFrames, if 0 < ctx.pending then ctx.pending - 1 else ctx.pending, true⟩,
            s, ⟨false, false⟩) := by
  rcases Nat.eq_zero_or_pos ctx.pending with h0 | h0 <;> simp [wrapper, h, h0]

theorem runCallbacks_of_stopped {σ : Type}
    (handler : σ → Frame (List Nat) → σ × StreamContinue) (s : σ)
    (invs : List (VmbFrame_t × Except Error Unit)) (ctx : CameraCallbackContext)
    (h : ctx.stopped = true) :
    runCallbacks ctx handler s invs =
      some (⟨ctx.numFrames, ctx.pending - invs.length, true⟩, s,
            List.replicate invs.length ⟨false, false⟩) := by
  induction invs generalizing ctx with
  | nil =>
    cases ctx with
    | mk n p st => subst h; rfl
  | cons fr rest ih =>
    obtain ⟨f, rq⟩ := fr
    have hsub : (if 0 < ctx.pending then ctx.pending - 1 else ctx.pending)
        = ctx.pending - 1 := by
      rcases Nat.eq_zero_or_pos ctx.pending with h0 | h0 <;> simp [h0]
    have hp := ih ⟨ctx.numFrames, ctx.pending - 1, true⟩ rfl
    simp only [runCallbacks, wrapper_of_stopped ctx handler s f rq h, hsub, hp,
      List.length_cons, List.replicate_succ]
    have harith : ctx.pending - 1 - rest.length = ctx.pending - (rest.length + 1) := by omega
    rw [harith]

theorem runCallbacks_append {σ : Type}
    (handler : σ → Frame (List Nat) → σ × StreamContinue)
    (l1 l2 : List (VmbFrame_t × Except Error Unit))
    (ctx ctx1 ctx2 : CameraCallbackContext) (s s1 s2 : σ)
    (r1 r2 : List WrapperRecord)
    (h1 : runCallbacks ctx handler s l1 = some (ctx1, s1, r1))
    (h2 : runCallbacks ctx1 handler s1 l2 = some (ctx2, s2, r2)) :
    runCallbacks ctx handler s (l1 ++ l2) = some (ctx2, s2, r1 ++ r2) := by
  induction l1 generalizing ctx s r1 with
  | nil =>
    simp [runCallbacks] at h1
    obtain ⟨hc, hs, hr⟩ := h1
    subst hc; subst hs; subst hr
    simpa using h2
  | cons fr rest ih =>
    obtain ⟨f, rq⟩ := fr
    cases hw : wrapper ctx handler s f rq with
    | none => simp [runCallbacks, hw] at h1
    | some v =>
      obtain ⟨c, s', rec⟩ := v
      cases hrest : runCallbacks c handler s' rest with
      | none => simp [runCallbacks, hw, hrest] at h1
      | some w =>
        obtain ⟨c2, s2', r2'⟩ := w
        simp only [runCallbacks, hw, hrest, Option.some.injEq, Prod.mk.injEq] at h1
        obtain ⟨hc2, hs2, hr2⟩ := h1
        subst hc2; subst hs2; subst hr2
        simp only [List.cons_append, runCallbacks, hw]
        rw [show rest.append l2 = rest ++ l2 from rfl, ih c s' r2' hrest]

/-- Claim C1: each invocation of the driver callback bridge (`wrapper`)
proceeds in exactly this order: first a non-blocking poll of the
stop-request channel, setting the shared stopped flag and returning without
invoking the handler or re-queuing when a stop request is pending; then an
immediate no-handler return when the stopped flag is already set; otherwise
the handler is invoked exactly once with the frame view built from the
completed descriptor and buffer, after which the stopped flag is set with no
re-queue when the handler returned stop, and the same frame is re-queued
with the driver (stopped left clear) when the handler returned continue. -/
theorem claim_C1_wrapper_order : ∀ (σ : Type) (ctx : CameraCallbackContext)
    (handler : σ → Frame (List Nat) → σ × StreamContinue) (s : σ)
    (frame : VmbFrame_t) (rq : Except Error Unit),
    (0 < ctx.pending →
      wrapper ctx handler s frame rq =
        some (⟨ctx.numFrames, ctx.pending - 1, true⟩, s, ⟨false, false⟩)) ∧
    (ctx.pending = 0 → ctx.stopped = true →
      wrapper ctx handler s frame rq =
        some (⟨ctx.numFrames, 0, true⟩, s, ⟨false, false⟩)) ∧
    (ctx.pending = 0 → ctx.stopped = false →
      ∀ (s1 : σ) (action : StreamContinue),
        handler s (Frame.from_c_struct_ref_data frame) = (s1, action) →
          (action = StreamContinue.mk false →
            wrapper ctx handler s frame rq =
              some (⟨ctx.numFrames, 0, true⟩, s1, ⟨true, false⟩)) ∧
          (action = StreamContinue.mk true → rq = .ok () →
            wrapper ctx handler s frame rq =
              some (⟨ctx.numFrames, 0, false⟩, s1, ⟨true, true⟩))) := by
  intro σ ctx handler s frame rq
  refine ⟨?_, ?_, ?_⟩
  · intro h
    simp [wrapper, h]
  · intro hp hs
    simp [wrapper, hp, hs]
  · intro hp hs s1 action hh
    refine ⟨?_, ?_⟩
    · intro ha
      subst ha
      simp [wrapper, hp, hs, hh]
    · intro ha hr
      subst hr
      simp [wrapper, hp, hs, hh, ha]

theorem claim_C1_wrapper_order_witness :
    wrapper ⟨2, 0, false⟩
      (fun (s : Unit) (_ : Frame (List Nat)) => (s, StreamContinue.mk false)) ()
      ⟨[5], 1, 1, 1, 0, 0, 3, 4⟩ (.ok ()) =
      some (⟨2, 0, true⟩, (), ⟨true, false⟩) :=
  ((claim_C1_wrapper_order Unit ⟨2, 0, false⟩
      (fun s _ => (s, StreamContinue.mk false)) ()
      ⟨[5], 1, 1, 1, 0, 0, 3, 4⟩ (.ok ())).2.2 rfl rfl ()
      (StreamContinue.mk false) rfl).1 rfl

/-- Claim C4: `start_streaming` on a camera whose callback context is
present fails with `DeviceBusy`, makes no driver call, and leaves the
camera — context, buffers, pool — exactly as it was; the `Option`-typed
`cb_ctx` field makes a second simultaneous context impossible by
construction. -/
theorem claim_C4_start_busy : ∀ (cam : Camera) (o : StartOracle) (buffers : Nat)
    (ctx : CameraCallbackContext),
    cam.cb_ctx = some ctx →
    start_streaming cam o buffers = (.error .DeviceBusy, cam, []) := by
  intro cam o buffers ctx h
  simp [start_streaming, h]

theorem claim_C4_start_busy_witness :
    start_streaming ⟨true, some ⟨2, 0, false⟩⟩
      ⟨.ok 8, fun _ => .ok (), .ok (), .ok (), .ok (), fun _ => .ok (), .ok ()⟩ 4 =
      (.error .DeviceBusy, ⟨true, some ⟨2, 0, false⟩⟩, []) :=
  claim_C4_start_busy ⟨true, some ⟨2, 0, false⟩⟩
    ⟨.ok 8, fun _ => .ok (), .ok (), .ok (), .ok (), fun _ => .ok (), .ok ()⟩ 4
    ⟨2, 0, false⟩ rfl

/-- Claim C7: `error_code_to_result` returns `Ok(())` exactly for the
success code, maps each known Vimba status code 1:1 to its `Error` variant,
and panics (modelled as `none`) on every unknown code instead of swallowing
or mis-mapping it. -/
theorem claim_C7_error_code_mapping : ∀ code : Int,
    (error_code_to_result code = some (.ok ()) ↔ code = VmbErrorSuccess) ∧
    (∀ e : Error, Error.try_from code = .ok e →
      error_code_to_result code = some (.error e)) ∧
    (code ≠ VmbErrorSuccess → Error.try_from code = .error () →
      error_code_to_result code = none) ∧
    (error_code_to_result VmbErrorInternalFault = some (.error .InternalFault) ∧
     error_code_to_result VmbErrorApiNotStarted = some (.error .ApiNotStarted) ∧
     error_code_to_result VmbErrorNotFound = some (.error .NotFound) ∧
     error_code_to_result VmbErrorBadHandle = some (.error .BadHandle) ∧
     error_code_to_result VmbErrorDeviceNotOpen = some (.error .DeviceNotOpen) ∧
     error_code_to_result VmbErrorInvalidAccess = some (.error .InvalidAccess) ∧
     error_code_to_result VmbErrorBadParameter = some (.error .BadParameter) ∧
     error_code_to_result VmbErrorStructSize = some (.error .StructSize) ∧
     error_code_to_result VmbErrorMoreData = some (.error .MoreData) ∧
     error_code_to_result VmbErrorWrongType = some (.error .WrongType) ∧
     error_code_to_result VmbErrorInvalidValue = some (.error .InvalidValue) ∧
     error_code_to_result VmbErrorTimeout = some (.error .Timeout) ∧
     error_code_to_result VmbErrorOther = some (.error .Other) ∧
     error_code_to_result VmbErrorResources = some (.error .Resources) ∧
     error_code_to_result VmbErrorInvalidCall = some (.error .InvalidCall) ∧
     error_code_to_result VmbErrorNoTL = some (.error .NoTL) ∧
     error_code_to_result VmbErrorNotImplemented = some (.error .NotImplemented) ∧
     error_code_to_result VmbErrorNotSupported = some (.error .NotSupported) ∧
     error_code_to_result VmbErrorIncomplete = some (.error .Incomplete) ∧
     error_code_to_result VmbErrorIOCode = some (.error .IOError)) := by
  intro code
  have hmap : ∀ e : Error, Error.try_from code = .ok e →
      error_code_to_result code = some (.error e) := by
    intro e he
    have hne : code ≠ VmbErrorSuccess := by
      intro hc
      subst hc
      rw [show Error.try_from VmbErrorSuccess = .error () from rfl] at he
      simp at he
    simp [error_code_to_result, hne, he]
  refine ⟨?_, hmap, ?_, ?_⟩
  · constructor
    · intro h
      by_contra hne
      cases htf : Error.try_from code with
      | error u => simp [error_code_to_result, hne, htf] at h
      | ok e => simp [error_code_to_result, hne, htf] at h
    · intro h
      subst h
      rfl
  · intro hne htf
    simp [error_code_to_result, hne, htf]
  · exact ⟨rfl, rfl, rfl, rfl, rfl, rfl, rfl, rfl, rfl, rfl,
          rfl, rfl, rfl, rfl, rfl, rfl, rfl, rfl, rfl, rfl⟩

theorem claim_C7_error_code_mapping_witness :
    error_code_to_result 5 = none ∧
    error_code_to_result (-3) = some (.error .NotFound) := by
  constructor
  · exact (claim_C7_error_code_mapping 5).2.2.1 (by decide) rfl
  · exact (claim_C7_error_code_mapping (-3)).2.1 .NotFound rfl

/-- Claim C9: the frame view built from a completed descriptor exposes
exactly the six metadata fields the driver wrote — width, height, offsets,
frame id, timestamp — unmodified, and `map_data` / `with_ref_data` /
`with_vec_data` keep all six unchanged while transforming only the data. -/
theorem claim_C9_frame_metadata : ∀ (fr : VmbFrame_t) (α β : Type) (d : α)
    (f : α → β) (p : Frame α) (q : Frame (List Nat)),
    ((Frame.from_c_struct fr d).width = fr.width ∧
     (Frame.from_c_struct fr d).height = fr.height ∧
     (Frame.from_c_struct fr d).offset_x = fr.offsetX ∧
     (Frame.from_c_struct fr d).offset_y = fr.offsetY ∧
     (Frame.from_c_struct fr d).id = fr.frameID ∧
     (Frame.from_c_struct fr d).timestamp = fr.timestamp ∧
     (Frame.from_c_struct fr d).data = d) ∧
    ((Frame.from_c_struct_ref_data fr).width = fr.width ∧
     (Frame.from_c_struct_ref_data fr).height = fr.height ∧
     (Frame.from_c_struct_ref_data fr).offset_x = fr.offsetX ∧
     (Frame.from_c_struct_ref_data fr).offset_y = fr.offsetY ∧
     (Frame.from_c_struct_ref_data fr).id = fr.frameID ∧
     (Frame.from_c_struct_ref_data fr).timestamp = fr.timestamp ∧
     (Frame.from_c_struct_ref_data fr).data = fr.buffer.take fr.bufferSize) ∧
    ((p.map_data f).width = p.width ∧
     (p.map_data f).height = p.height ∧
     (p.map_data f).offset_x = p.offset_x ∧
     (p.map_data f).offset_y = p.offset_y ∧
     (p.map_data f).id = p.id ∧
     (p.map_data f).timestamp = p.timestamp ∧
     (p.map_data f).data = f p.data) ∧
    (q.with_ref_data.width = q.width ∧
     q.with_ref_data.height = q.height ∧
     q.with_ref_data.offset_x = q.offset_x ∧
     q.with_ref_data.offset_y = q.offset_y ∧
     q.with_ref_data.id = q.id ∧
     q.with_ref_data.timestamp = q.timestamp ∧
     q.with_ref_data.data = q.data) ∧
    (q.with_vec_data.width = q.width ∧
     q.with_vec_data.height = q.height ∧
     q.with_vec_data.offset_x = q.offset_x ∧
     q.with_vec_data.offset_y = q.offset_y ∧
     q.with_vec_data.id = q.id ∧
     q.with_vec_data.timestamp = q.timestamp ∧
     q.with_vec_data.data = q.data) := by
  intro fr α β d f p q
  exact ⟨⟨rfl, rfl, rfl, rfl, rfl, rfl, rfl⟩,
         ⟨rfl, rfl, rfl, rfl, rfl, rfl, rfl⟩,
         ⟨rfl, rfl, rfl, rfl, rfl, rfl, rfl⟩,
         ⟨rfl, rfl, rfl, rfl, rfl, rfl, rfl⟩,
         ⟨rfl, rfl, rfl, rfl, rfl, rfl, rfl⟩⟩

/-- Claim C10: for each typed getter, `Ok(v)` is returned exactly when the
untyped `get_feature` returns `Ok` of the matching variant carrying `v`,
`Err` is propagated unchanged, and a successful `get_feature` of any other
variant panics (modelled as `none`) instead of returning `Err(WrongType)`. -/
theorem claim_C10_typed_getters : ∀ (gf : String → Except Error FeatureValue)
    (name : String),
    ((∀ v, get_feature_int gf name = some (.ok v) ↔ gf name = .ok (.Int v)) ∧
     (∀ e, gf name = .error e → get_feature_int gf name = some (.error e)) ∧
     (∀ v, gf name = .ok v → v.feature_type ≠ FeatureType.Int →
        get_feature_int gf name = none)) ∧
    ((∀ v, get_feature_float gf name = some (.ok v) ↔ gf name = .ok (.Float v)) ∧
     (∀ e, gf name = .error e → get_feature_float gf name = some (.error e)) ∧
     (∀ v, gf name = .ok v → v.feature_type ≠ FeatureType.Float →
        get_feature_float gf name = none)) ∧
    ((∀ v, get_feature_enum gf name = some (.ok v) ↔ gf name = .ok (.Enum v)) ∧
     (∀ e, gf name = .error e → get_feature_enum gf name = some (.error e)) ∧
     (∀ v, gf name = .ok v → v.feature_type ≠ FeatureType.Enum →
        get_feature_enum gf name = none)) ∧
    ((∀ v, get_feature_string gf name = some (.ok v) ↔ gf name = .ok (.String v)) ∧
     (∀ e, gf name = .error e → get_feature_string gf name = some (.error e)) ∧
     (∀ v, gf name = .ok v → v.feature_type ≠ FeatureType.String →
        get_feature_string gf name = none)) ∧
    ((∀ v, get_feature_bool gf name = some (.ok v) ↔ gf name = .ok (.Bool v)) ∧
     (∀ e, gf name = .error e → get_feature_bool gf name = some (.error e)) ∧
     (∀ v, gf name = .ok v → v.feature_type ≠ FeatureType.Bool →
        get_feature_bool gf name = none)) ∧
    ((∀ v, get_feature_raw gf name = some (.ok v) ↔ gf name = .ok (.Raw v)) ∧
     (∀ e, gf name = .error e → get_feature_raw gf name = some (.error e)) ∧
     (∀ v, gf name = .ok v → v.feature_type ≠ FeatureType.Raw →
        get_feature_raw gf name = none)) := by
  intro gf name
  refine ⟨⟨?_, ?_, ?_⟩, ⟨?_, ?_, ?_⟩, ⟨?_, ?_, ?_⟩, ⟨?_, ?_, ?_⟩, ⟨?_, ?_, ?_⟩,
         ⟨?_, ?_, ?_⟩⟩
  · intro v
    cases h : gf name with
    | error e => simp [get_feature_int, h]
    | ok w => cases w <;> simp [get_feature_int, h, FeatureValue.into_int]
  · intro e he
    simp [get_feature_int, he]
  · intro v hv hty
    cases v <;>
      simp_all [get_feature_int, FeatureValue.into_int, FeatureValue.feature_type]
  · intro v
    cases h : gf name with
    | error e => simp [get_feature_float, h]
    | ok w => cases w <;> simp [get_feature_float, h, FeatureValue.into_float]
  · intro e he
    simp [get_feature_float, he]
  · intro v hv hty
    cases v <;>
      simp_all [get_feature_float, FeatureValue.into_float, FeatureValue.feature_type]
  · intro v
    cases h : gf name with
    | error e => simp [get_feature_enum, h]
    | ok w => cases w <;> simp [get_feature_enum, h, FeatureValue.into_enum]
  · intro e he
    simp [get_feature_enum, he]
  · intro v hv hty
    cases v <;>
      simp_all [get_feature_enum, FeatureValue.into_enum, FeatureValue.feature_type]
  · intro v
    cases h : gf name with
    | error e => simp [get_feature_string, h]
    | ok w => cases w <;> simp [get_feature_string, h, FeatureValue.into_string]
  · intro e he
    simp [get_feature_string, he]
  · intro v hv hty
    cases v <;>
      simp_all [get_feature_string, FeatureValue.into_string, FeatureValue.feature_type]
  · intro v
    cases h : gf name with
    | error e => simp [get_feature_bool, h]
    | ok w => cases w <;> simp [get_feature_bool, h, FeatureValue.into_bool]
  · intro e he
    simp [get_feature_bool, he]
  · intro v hv hty
    cases v <;>
      simp_all [get_feature_bool, FeatureValue.into_bool, FeatureValue.feature_type]
  · intro v
    cases h : gf name with
    | error e => simp [get_feature_raw, h]
    | ok w => cases w <;> simp [get_feature_raw, h, FeatureValue.into_raw]
  · intro e he
    simp [get_feature_raw, he]
  · intro v hv hty
    cases v <;>
      simp_all [get_feature_raw, FeatureValue.into_raw, FeatureValue.feature_type]

theorem claim_C10_typed_getters_witness :
    get_feature_int (fun _ => .ok (.Int 5)) "PayloadSize" = some (.ok 5) ∧
    get_feature_float (fun _ => .ok (.Int 5)) "PayloadSize" = none ∧
    get_feature_bool (fun _ => .error .Timeout) "PayloadSize" =
      some (.error .Timeout) := by
  refine ⟨?_, ?_, ?_⟩
  · exact ((claim_C10_typed_getters (fun _ => .ok (.Int 5)) "PayloadSize").1.1 5).mpr rfl
  · exact (claim_C10_typed_getters (fun _ => .ok (.Int 5)) "PayloadSize").2.1.2.2
      (.Int 5) rfl (by decide)
  · exact (claim_C10_typed_getters (fun _ => .error .Timeout) "PayloadSize").2.2.2.2.1.2.1
      .Timeout rfl

/-- Claim C2: with a session active, `stop_streaming` performs, in order:
the stop-request send, the `AcquisitionStop` command, the `AcquisitionStatus`
poll loop (sleeping 10 ms between polls) until the status reads inactive,
`VmbCaptureEnd`, `VmbCaptureQueueFlush`, a `VmbFrameRevoke` for each of the
N announced buffers, and the release of the callback context; with no
session active it returns `Ok(())` making no device call. -/
theorem claim_C2_stop_protocol : ∀ (cam : Camera) (o : StopOracle),
    (cam.cb_ctx = none → stop_streaming cam o = some (.ok (), cam, [])) ∧
    (∀ (ctx : CameraCallbackContext) (k : Nat),
      cam.cb_ctx = some ctx →
      o.acqStopRes = .ok () →
      o.statusResponses = List.replicate k (.ok true) ++ [.ok false] →
      o.captureEndRes = .ok () →
      o.flushRes = .ok () →
      (∀ i < ctx.numFrames, o.revokeRes i = .ok ()) →
      stop_streaming cam o =
        some (.ok (), ⟨cam.isOpen, none⟩, stopEvents k ctx.numFrames)) := by
  intro cam o
  constructor
  · intro h
    simp [stop_streaming, h]
  · intro ctx k h0 h1 h2 h3 h4 h5
    exact stop_streaming_all_ok cam o ctx k h0 h1 h2 h3 h4 h5

theorem claim_C2_stop_protocol_witness :
    stop_streaming ⟨true, some ⟨2, 0, false⟩⟩
      ⟨.ok (), [.ok true, .ok false], .ok (), .ok (), fun _ => .ok ()⟩ =
      some (.ok (), ⟨true, none⟩, stopEvents 1 2) ∧
    stop_streaming ⟨true, none⟩
      ⟨.ok (), [.ok true, .ok false], .ok (), .ok (), fun _ => .ok ()⟩ =
      some (.ok (), ⟨true, none⟩, []) := by
  constructor
  · exact (claim_C2_stop_protocol ⟨true, some ⟨2, 0, false⟩⟩
      ⟨.ok (), [.ok true, .ok false], .ok (), .ok (), fun _ => .ok ()⟩).2
      ⟨2, 0, false⟩ 1 rfl rfl rfl rfl rfl (fun i _ => rfl)
  · exact (claim_C2_stop_protocol ⟨true, none⟩
      ⟨.ok (), [.ok true, .ok false], .ok (), .ok (), fun _ => .ok ()⟩).1 rfl

/-- Claim C3: once stop has been observed by the callback bridge — whether
because a stop request arrived on the channel or because the handler
returned `StreamContinue(false)` — every subsequent invocation neither runs
the user handler (the handler state is unchanged and every record shows no
invocation) nor re-queues a buffer; in particular a handler that signals
stop on its Kth invocation is never invoked a (K+1)th time. -/
theorem claim_C3_no_action_after_stop : ∀ (σ : Type)
    (handler : σ → Frame (List Nat) → σ × StreamContinue) (s s1 : σ)
    (ctx ctx1 : CameraCallbackContext) (recs1 : List WrapperRecord)
    (pre post : List (VmbFrame_t × Except Error Unit)),
    runCallbacks ctx handler s pre = some (ctx1, s1, recs1) →
    ctx1.stopped = true →
    runCallbacks ctx handler s (pre ++ post) =
      some (⟨ctx1.numFrames, ctx1.pending - post.length, true⟩, s1,
            recs1 ++ List.replicate post.length ⟨false, false⟩) := by
  intro σ handler s s1 ctx ctx1 recs1 pre post h hstop
  exact runCallbacks_append handler pre post ctx ctx1 _ s s1 _ recs1 _ h
    (runCallbacks_of_stopped handler s1 post ctx1 hstop)

theorem claim_C3_no_action_after_stop_witness :
    runCallbacks ⟨2, 0, false⟩
      (fun (n : Nat) (_ : Frame (List Nat)) => (n + 1, StreamContinue.mk false)) 0
      ([(⟨[7], 1, 1, 1, 0, 0, 0, 0⟩, .ok ())] ++
       [(⟨[7], 1, 1, 1, 0, 0, 0, 0⟩, .ok ()), (⟨[7], 1, 1, 1, 0, 0, 0, 0⟩, .ok ())]) =
      some (⟨2, 0, true⟩, 1, [⟨true, false⟩, ⟨false, false⟩, ⟨false, false⟩]) :=
  claim_C3_no_action_after_stop Nat
    (fun n _ => (n + 1, StreamContinue.mk false)) 0 1 ⟨2, 0, false⟩ ⟨2, 0, true⟩
    [⟨true, false⟩] [(⟨[7], 1, 1, 1, 0, 0, 0, 0⟩, .ok ())]
    [(⟨[7], 1, 1, 1, 0, 0, 0, 0⟩, .ok ()), (⟨[7], 1, 1, 1, 0, 0, 0, 0⟩, .ok ())]
    rfl rfl

/-- Claim C5, counterexample: a concrete `start_streaming` run on 2 buffers
whose `AcquisitionStart` command fails returns the error after announcing
buffers 0 and 1, yet its driver-call trace contains no `VmbFrameRevoke` at
all — the partially-announced buffers are not rolled back, contradicting
the claim that they are revoked before the error is returned. -/
theorem claim_C5_rollback_counterexample :
    start_streaming ⟨true, none⟩
      ⟨.ok 4, fun _ => .ok (), .ok (), .ok (), .ok (), fun _ => .ok (),
       .error .Timeout⟩ 2 =
      (.error .Timeout, ⟨true, none⟩, startEvents 2) ∧
    DevEvent.frameAnnounce 0 ∈ startEvents 2 ∧
    DevEvent.frameAnnounce 1 ∈ startEvents 2 ∧
    List.filter isFrameRevoke (startEvents 2) = [] := by
  refine ⟨?_, ?_, ?_, ?_⟩
  · rfl
  · decide
  · decide
  · rfl

/-- Claim C5, amended: when any step of `start_streaming` fails — a
mid-loop announce or queue failure, a feature write, `VmbCaptureStart`, or
the `AcquisitionStart` command — the error is returned with the callback
context and pool deallocated (the camera holds no callback context), but
the already-announced buffers are never revoked: no path of
`start_streaming` makes a `VmbFrameRevoke` call. -/
theorem claim_C5_no_revoke_on_failure : ∀ (cam : Camera) (o : StartOracle)
    (buffers : Nat) (e : Error) (cam1 : Camera) (evs : List DevEvent),
    cam.cb_ctx = none →
    start_streaming cam o buffers = (.error e, cam1, evs) →
    cam1.cb_ctx = none ∧ ∀ i, DevEvent.frameRevoke i ∉ evs := by
  intro cam o buffers e cam1 evs hnone h
  have hnrA := announceList_no_revoke (List.range buffers) o.announceRes
  have hnrQ := queueList_no_revoke (List.range buffers) o.queueRes
  simp only [start_streaming, hnone] at h
  cases hp : o.payloadSize with
  | error e2 =>
    rw [hp] at h
    simp only [Prod.mk.injEq] at h
    obtain ⟨-, h2, h3⟩ := h
    subst h2; subst h3
    exact ⟨hnone, fun i => by simp⟩
  | ok sz =>
    rw [hp] at h
    rcases ha : announceList (List.range buffers) o.announceRes with ⟨ra, evsA⟩
    rw [ha] at h
    simp only [ha] at hnrA
    cases ra with
    | error e2 =>
      simp only [Prod.mk.injEq] at h
      obtain ⟨-, h2, h3⟩ := h
      subst h2; subst h3
      exact ⟨hnone, fun i => by simp [hnrA i]⟩
    | ok u =>
      cases hsel : o.setSelectorRes with
      | error e2 =>
        rw [hsel] at h
        simp only [Prod.mk.injEq] at h
        obtain ⟨-, h2, h3⟩ := h
        subst h2; subst h3
        exact ⟨hnone, fun i => by simp [hnrA i]⟩
      | ok u2 =>
        rw [hsel] at h
        cases hmode : o.setModeRes with
        | error e2 =>
          rw [hmode] at h
          simp only [Prod.mk.injEq] at h
          obtain ⟨-, h2, h3⟩ := h
          subst h2; subst h3
          exact ⟨hnone, fun i => by simp [hnrA i]⟩
        | ok u3 =>
          rw [hmode] at h
          cases hcap : o.captureStartRes with
          | error e2 =>
            rw [hcap] at h
            simp only [Prod.mk.injEq] at h
            obtain ⟨-, h2, h3⟩ := h
            subst h2; subst h3
            exact ⟨hnone, fun i => by simp [hnrA i]⟩
          | ok u4 =>
            rw [hcap] at h
            rcases hq : queueList (List.range buffers) o.queueRes with ⟨rq, evsQ⟩
            rw [hq] at h
            simp only [hq] at hnrQ
            cases rq with
            | error e2 =>
              simp only [Prod.mk.injEq] at h
              obtain ⟨-, h2, h3⟩ := h
              subst h2; subst h3
              exact ⟨hnone, fun i => by simp [hnrA i, hnrQ i]⟩
            | ok u5 =>
              cases hacq : o.acqStartRes with
              | error e2 =>
                rw [hacq] at h
                simp only [Prod.mk.injEq] at h
                obtain ⟨-, h2, h3⟩ := h
                subst h2; subst h3
                exact ⟨rfl, fun i => by simp [hnrA i, hnrQ i]⟩
              | ok u6 =>
                rw [hacq] at h
                simp at h

theorem claim_C5_no_revoke_on_failure_witness :
    (⟨true, none⟩ : Camera).cb_ctx = none ∧
    DevEvent.frameRevoke 0 ∉ startEvents 2 :=
  ⟨(claim_C5_no_revoke_on_failure ⟨true, none⟩
      ⟨.ok 4, fun _ => .ok (), .ok (), .ok (), .ok (), fun _ => .ok (),
       .error .Timeout⟩ 2 .Timeout ⟨true, none⟩ (startEvents 2) rfl rfl).1,
   (claim_C5_no_revoke_on_failure ⟨true, none⟩
      ⟨.ok 4, fun _ => .ok (), .ok (), .ok (), .ok (), fun _ => .ok (),
       .error .Timeout⟩ 2 .Timeout ⟨true, none⟩ (startEvents 2) rfl rfl).2 0⟩

/-- Claim C6 (code bug): dropping a `Camera` whose streaming session is
active performs only the `VmbCameraClose` call of `close` — no stop signal,
no `AcquisitionStop`, no status poll, no capture end, no queue flush, and
no buffer revoke — abandoning the announced buffers, contrary to the claim
(and spec §5) that the full stop sequence runs; the part of the claim that
does hold is escalation: a teardown failure panics (`none`) rather than
being swallowed. -/
theorem claim_C6_drop_only_closes :
    dropCamera ⟨true, some ⟨3, 0, false⟩⟩ (.ok ()) =
      some (⟨false, none⟩, [.cameraClose]) ∧
    DevEvent.sendStop ∉ [DevEvent.cameraClose] ∧
    DevEvent.runCommand "AcquisitionStop" ∉ [DevEvent.cameraClose] ∧
    List.filter isFrameRevoke [DevEvent.cameraClose] = [] ∧
    dropCamera ⟨true, some ⟨3, 0, false⟩⟩ (.error .BadHandle) = none := by
  refine ⟨rfl, ?_, ?_, rfl, rfl⟩
  · decide
  · decide

/-- Claim C8: `get_frame` is `stream` with a handler that copies the first
frame's data out and immediately signals stop, requesting 2 (hence at least
2) buffers; on a successful run it returns exactly the first completed
frame's copied data, and afterwards the callback context is gone (session
idle), so the call can be repeated without `DeviceBusy`.  The trace is the
full start protocol over 2 buffers followed by the full stop protocol. -/
theorem claim_C8_get_frame : ∀ (cam : Camera) (so : StartOracle) (po : StopOracle)
    (sz : Int) (f0 : VmbFrame_t) (rq0 : Except Error Unit)
    (rest : List (VmbFrame_t × Except Error Unit)) (k : Nat),
    cam.cb_ctx = none →
    so.payloadSize = .ok sz →
    (∀ i < 2, so.announceRes i = .ok ()) →
    so.setSelectorRes = .ok () →
    so.setModeRes = .ok () →
    so.captureStartRes = .ok () →
    (∀ i < 2, so.queueRes i = .ok ()) →
    so.acqStartRes = .ok () →
    po.acqStopRes = .ok () →
    po.statusResponses = List.replicate k (.ok true) ++ [.ok false] →
    po.captureEndRes = .ok () →
    po.flushRes = .ok () →
    (∀ i < 2, po.revokeRes i = .ok ()) →
    get_frame cam so ((f0, rq0) :: rest) po =
      some (.ok ((Frame.from_c_struct_ref_data f0).with_vec_data),
            ⟨cam.isOpen, none⟩, startEvents 2 ++ stopEvents k 2) := by
  intro cam so po sz f0 rq0 rest k hnone hps hann hsel hmode hcap hq hacq
    hs1 hs2 hs3 hs4 hs5
  have hstart := start_streaming_all_ok cam so 2 sz hnone hps hann hsel hmode
    hcap hq hacq
  have hw : wrapper ⟨2, 0, false⟩ (streamWrap getFrameHandler) ([], 0) f0 rq0 =
      some (⟨2, 0, true⟩,
            ([(Frame.from_c_struct_ref_data f0).with_vec_data], 1),
            ⟨true, false⟩) := rfl
  have hrest := runCallbacks_of_stopped (streamWrap getFrameHandler)
    ([(Frame.from_c_struct_ref_data f0).with_vec_data], 1) rest ⟨2, 0, true⟩ rfl
  have hrun : runCallbacks ⟨2, 0, false⟩ (streamWrap getFrameHandler) ([], 0)
      ((f0, rq0) :: rest) =
      some (⟨2, 0, true⟩,
            ([(Frame.from_c_struct_ref_data f0).with_vec_data], 1),
            ⟨true, false⟩ :: List.replicate rest.length ⟨false, false⟩) := by
    simp only [runCallbacks, hw, hrest, Nat.zero_sub]
  have hstop := stop_streaming_all_ok ⟨cam.isOpen, some ⟨2, 0, true⟩⟩ po
    ⟨2, 0, true⟩ k rfl hs1 hs2 hs3 hs4 hs5
  simp only [get_frame, stream, hstart, hrun, hstop]
  simp

theorem claim_C8_get_frame_witness :
    get_frame ⟨true, none⟩
      ⟨.ok 3, fun _ => .ok (), .ok (), .ok (), .ok (), fun _ => .ok (), .ok ()⟩
      [(⟨[1, 2, 3, 4], 3, 8, 6, 0, 0, 11, 12⟩, .ok ())]
      ⟨.ok (), [.ok false], .ok (), .ok (), fun _ => .ok ()⟩ =
      some (.ok ((Frame.from_c_struct_ref_data
              ⟨[1, 2, 3, 4], 3, 8, 6, 0, 0, 11, 12⟩).with_vec_data),
            ⟨true, none⟩, startEvents 2 ++ stopEvents 0 2) :=
  claim_C8_get_frame ⟨true, none⟩
    ⟨.ok 3, fun _ => .ok (), .ok (), .ok (), .ok (), fun _ => .ok (), .ok ()⟩
    ⟨.ok (), [.ok false], .ok (), .ok (), fun _ => .ok ()⟩
    3 ⟨[1, 2, 3, 4], 3, 8, 6, 0, 0, 11, 12⟩ (.ok ()) [] 0
    rfl rfl (fun _ _ => rfl) rfl rfl rfl (fun _ _ => rfl) rfl
    rfl rfl rfl rfl (fun _ _ => rfl)
